import Mathlib

/-!
Verification of the renku dataset / Zenodo integration code.

The definitions below are a shallow embedding of
`src/renku/cli/_providers/zenodo.py`, `src/renku/cli/zenodo.py` and
`src/renku/cli/dataset.py`.  HTTP traffic is modelled by an oracle
function from requests to responses; Python exceptions become values
of `Except`; the mutable dataset index becomes explicit state passing.
-/

namespace Renku

/-- One entry of a Zenodo 400-payload `errors` list (`{field, message}`). -/
structure ErrEntry where
  field : String
  message : String
deriving DecidableEq, Repr

/-- An HTTP response as observed by the exporter: status code, the
deposition id of the parsed JSON body (used after deposition creation),
the `errors` list of a 400 body, and the raw content. -/
structure Resp where
  status : Nat
  id : Nat
  errors : List ErrEntry
  content : String
deriving DecidableEq, Repr

/-- The errors the Zenodo code can raise (all are `requests.HTTPError`
in the source; we keep the distinguishing payloads). -/
inductive ZError where
  /-- `HTTPError('Access unauthorized - update access token.')` on 401. -/
  | unauthorized
  /-- `HTTPError` built from the formatted `errors` entries on 400. -/
  | validation (lines : List String)
  /-- `HTTPError(response.content)` on any other non-success status. -/
  | generic (content : String)
  /-- `LookupError('record not found')` from `ZenodoProvider.make_request`. -/
  | recordNotFound
  /-- `LookupError('no files have been found')` from `get_files`. -/
  | noFiles
deriving DecidableEq, Repr

/-- The characters of `s` after the last occurrence of `sep` (the whole
string when `sep` does not occur), i.e. `s.split(sep)[-1]`. -/
def lastComponent (sep : Char) (s : String) : String :=
  String.mk ((s.toList.reverse.takeWhile fun c => c ≠ sep).reverse)

/-- The line `'"{0}" failed with "{1}"'.format(err['field'], err['message'])`
built for one entry of a 400 response's `errors` list. -/
def errLine (field message : String) : String :=
  "\"" ++ field ++ "\" failed with \"" ++ message ++ "\""

/-- `ZenodoExporter._check_or_raise`: status in `[200, 201, 202]` passes,
401 raises the authorization error, 400 raises the validation error built
from the payload's `errors` list, anything else raises a generic
`HTTPError` carrying the response content. -/
def check_or_raise (r : Resp) : Except ZError Unit :=
  if r.status ∈ [200, 201, 202] then .ok ()
  else if r.status == 401 then .error .unauthorized
  else if r.status == 400 then
    .error (.validation (r.errors.map fun e => errLine e.field e.message))
  else .error (.generic r.content)

/-- `ZenodoProvider.record_id`: `urlparse(uri).path.split('/')[-1]`, the
last `/`-separated component of the URI path. -/
def record_id (uri : String) : String :=
  lastComponent '/' uri

/-- `ZenodoProvider.make_request`: issue the lookup (modelled by the
`lookup` oracle, keyed by the extracted record id) and raise
the record-not-found error unless the status is exactly 200. -/
def make_request (lookup : String → Resp) (uri : String) : Except ZError Resp :=
  let response := lookup (record_id uri)
  if response.status ≠ 200 then .error .recordNotFound
  else .ok response

/-! ## Exporter (`ZenodoExporter`) -/

/-- One creator entry (`{'name': ..., 'affiliation': ...}`), also the
author identity used by `renku.models.datasets.Author`. -/
structure Creator where
  name : String
  affiliation : String
deriving DecidableEq, Repr

/-- A dataset file as seen by the exporter: only `full_path` is read. -/
structure ExpFile where
  full_path : String
deriving DecidableEq, Repr

/-- The dataset attributes read by `ZenodoExporter`. -/
structure ExpDataset where
  name : String
  description : String
  creator : List Creator
  files : List ExpFile
deriving DecidableEq, Repr

/-- The `metadata` payload built by `ZenodoExporter.attach_metadata`. -/
structure DepositionMetadata where
  title : String
  upload_type : String
  description : String
  creators : List Creator
deriving DecidableEq, Repr

/-- `Path(filepath).name`: the basename, i.e. the last `/`-separated
component of the path. -/
def pathName (p : String) : String :=
  lastComponent '/' p

/-- The HTTP requests the exporter can issue, carrying the data that the
source puts in each request. -/
inductive Req where
  /-- `requests.post` on `new_deposit_url` with empty JSON body. -/
  | newDeposition
  /-- `requests.post` on `upload_file_url(deposition_id)` with
  `{'filename': Path(filepath).name}` and the file bytes. -/
  | uploadFile (deposition_id : Nat) (filename : String)
  /-- `requests.put` on `attach_metadata_url(deposition_id)` with the
  serialized metadata payload. -/
  | attachMetadata (deposition_id : Nat) (payload : DepositionMetadata)
  /-- `requests.post` on `publish_url(deposition_id)`. -/
  | publishDeposition (deposition_id : Nat)
deriving DecidableEq, Repr

/-- Observable steps of one export run: the HTTP requests in issue order,
and each `progressbar.update(1)` tick. -/
inductive Event where
  | request (r : Req)
  | progress
deriving DecidableEq, Repr

/-- The `request_payload['metadata']` dict built in
`ZenodoExporter.attach_metadata` from the dataset. -/
def metadataPayload (ds : ExpDataset) : DepositionMetadata :=
  { title := ds.name
    upload_type := "dataset"
    description := ds.description
    creators := ds.creator.map fun c => { name := c.name, affiliation := c.affiliation } }

/-- `ZenodoExporter.published_at`: `zenodo_url + 'record/' + str(deposition_id)`. -/
def published_at (base : String) (deposition_id : Nat) : String :=
  base ++ "record/" ++ toString deposition_id

/-- `ZenodoExporter.deposit_at`: `zenodo_url + 'deposit/' + str(deposition_id)`. -/
def deposit_at (base : String) (deposition_id : Nat) : String :=
  base ++ "deposit/" ++ toString deposition_id

/-- Step 2 of `ZenodoExporter.export`: upload each dataset file to the
deposition in order, checking each response and advancing the progress
bar by one after each accepted upload.  Returns the emitted events and
the error that stopped the loop, if any.  The HTTP layer is the
`oracle` function from requests to responses. -/
def upload_files_loop (oracle : Req → Resp) (deposition_id : Nat) :
    List ExpFile → List Event × Option ZError
  | [] => ([], none)
  | f :: fs =>
    let req := Req.uploadFile deposition_id (pathName f.full_path)
    match check_or_raise (oracle req) with
    | .error e => ([Event.request req], some e)
    | .ok _ =>
      let rest := upload_files_loop oracle deposition_id fs
      (Event.request req :: Event.progress :: rest.1, rest.2)

/-- `ZenodoExporter.export`: create a deposition, upload every dataset
file, attach the metadata, and publish when `to_publish` is set,
checking every response with `check_or_raise`.  Returns the event trace
together with the result: the published-record URL when publishing, the
draft-deposit URL otherwise, or the first error raised. -/
def «export» (oracle : Req → Resp) (base : String) (ds : ExpDataset)
    (to_publish : Bool) : List Event × Except ZError String :=
  let resp0 := oracle Req.newDeposition
  match check_or_raise resp0 with
  | .error e => ([Event.request Req.newDeposition], .error e)
  | .ok _ =>
    let deposition_id := resp0.id
    let up := upload_files_loop oracle deposition_id ds.files
    let evs := Event.request Req.newDeposition :: up.1
    match up.2 with
    | some e => (evs, .error e)
    | none =>
      let reqM := Req.attachMetadata deposition_id (metadataPayload ds)
      match check_or_raise (oracle reqM) with
      | .error e => (evs ++ [Event.request reqM], .error e)
      | .ok _ =>
        if to_publish then
          let reqP := Req.publishDeposition deposition_id
          match check_or_raise (oracle reqP) with
          | .error e => (evs ++ [Event.request reqM, Event.request reqP], .error e)
          | .ok _ =>
            (evs ++ [Event.request reqM, Event.request reqP],
              .ok (published_at base deposition_id))
        else
          (evs ++ [Event.request reqM], .ok (deposit_at base deposition_id))

/-- Number of file-upload requests in an event trace. -/
def uploadCount (evs : List Event) : Nat :=
  evs.countP fun e =>
    match e with
    | Event.request (Req.uploadFile _ _) => true
    | _ => false

/-- The event sequence of step 2 on a fully successful run: one upload
request per file in order, each followed by one progress tick. -/
def expectedUploadEvents (deposition_id : Nat) : List ExpFile → List Event
  | [] => []
  | f :: fs =>
    Event.request (Req.uploadFile deposition_id (pathName f.full_path)) ::
      Event.progress :: expectedUploadEvents deposition_id fs

/-! ## Record import (`ZenodoRecordSerializer`, `Record`) -/

/-- One raw entry of a record's `files` JSON list, with the fields the
serializer reads (`links` is represented by its `download` entry, the
only one the source reads). -/
structure RecordFileJson where
  id : String
  checksum : String
  download : String
  filename : String
  filesize : Nat
deriving DecidableEq, Repr

/-- `ZenodoFileSerializer` built by `ZenodoFileSerializer(**file_)`. -/
structure ZenodoFileSerializer where
  id : String
  checksum : String
  download : String
  filename : String
  filesize : Nat
deriving DecidableEq, Repr

/-- `ZenodoFileSerializer(**file_)`: field-for-field construction from the
raw file dict. -/
def serializeFile (f : RecordFileJson) : ZenodoFileSerializer :=
  { id := f.id, checksum := f.checksum, download := f.download
    filename := f.filename, filesize := f.filesize }

/-- `ZenodoFileSerializer.type`: `self.filename.split('.')[-1]`. -/
def fileTypeOf (filename : String) : String :=
  lastComponent '.' filename

/-- `ZenodoRecordSerializer.get_files`: raise
`LookupError('no files have been found')` on an empty `files` list,
otherwise build one `ZenodoFileSerializer` per raw file. -/
def get_files (files : List RecordFileJson) :
    Except ZError (List ZenodoFileSerializer) :=
  if files.length = 0 then .error .noFiles
  else .ok (files.map serializeFile)

/-- One raw entry of `Record.data['files']` in `renku/cli/zenodo.py`;
`RecordFile(**file_)` copies these fields verbatim (`tp` stands for the
source field `type`, a Lean keyword). -/
structure RecordFile where
  checksum : String
  links : String
  bucket : String
  key : String
  size : Nat
  tp : String
deriving DecidableEq, Repr

/-- `Record.get_files` (`renku/cli/zenodo.py`): raise
`LookupError('no files have been found')` when `data['files']` is empty,
otherwise one `RecordFile` per entry. -/
def Record.get_files (data_files : List RecordFile) :
    Except ZError (List RecordFile) :=
  if data_files.length = 0 then .error .noFiles
  else .ok data_files

/-- The record jsonld metadata fields that the import maps onto a
dataset (title, description, creators). -/
structure RecordMetadataJsonld where
  title : String
  description : String
  creators : List Creator
deriving DecidableEq, Repr

/-- One `DatasetFile` as constructed inside
`ZenodoRecordSerializer.as_dataset`. -/
structure DatasetFileRec where
  url : String
  id : String
  checksum : String
  filename : String
  filesize : Nat
  filetype : String
  dataset : String
  path : String
deriving DecidableEq, Repr

/-- The dataset produced by the import direction. -/
structure ImportedDataset where
  name : String
  description : String
  authors : List Creator
  files : List DatasetFileRec
deriving DecidableEq, Repr

/-- Modelled from the spec: `Dataset.from_jsonld`
(`renku.models.datasets`, not under src/) builds a dataset from a
record's jsonld metadata, mapping the record's creators, title and
description onto the dataset's metadata and author list. -/
def datasetFromJsonld (m : RecordMetadataJsonld) : ImportedDataset :=
  { name := m.title
    description := m.description
    authors := m.creators.map fun c => { name := c.name, affiliation := c.affiliation }
    files := [] }

/-- A fetched Zenodo record: its raw `files` list and the jsonld
metadata that `get_jsonld` fetches for it. -/
structure ZenodoRecord where
  files : List RecordFileJson
  jsonld : RecordMetadataJsonld
deriving DecidableEq, Repr

/-- `ZenodoRecordSerializer.as_dataset`: deserialize the record into a
dataset — fetch the files (failing on an empty list), build the dataset
from the jsonld metadata, and attach one `DatasetFile` per remote file
with empty local `path`.  The url normalization of `dataset.url` at the
end of the source function touches no field modelled here. -/
def as_dataset (r : ZenodoRecord) : Except ZError ImportedDataset :=
  match get_files r.files with
  | .error e => .error e
  | .ok files =>
    let dataset := datasetFromJsonld r.jsonld
    let serialized_files := files.map fun f =>
      { url := f.download
        id := f.id
        checksum := f.checksum
        filename := f.filename
        filesize := f.filesize
        filetype := fileTypeOf f.filename
        dataset := dataset.name
        path := "" : DatasetFileRec }
    .ok { dataset with files := serialized_files }

/-! ## Dataset CLI commands (`renku/cli/dataset.py`) -/

/-- One entry of a dataset's file index as read by the CLI commands:
its relative path, its added timestamp and its authors column. -/
structure DatasetFileEntry where
  path : String
  added : Nat
  authors_csv : String
deriving DecidableEq, Repr

/-- The dataset state the CLI commands operate on: name and ordered
file index. -/
structure DatasetState where
  name : String
  files : List DatasetFileEntry
deriving DecidableEq, Repr

/-- Errors of the dataset CLI commands. -/
inductive CliError where
  /-- `click.Abort` raised when the confirmation prompt is declined. -/
  | abort
  /-- `NonEmptyDatasetError` from `client.delete_dataset` without force. -/
  | nonEmptyDataset
  /-- Python `UnboundLocalError`: a local read before any assignment. -/
  | unboundLocal
deriving DecidableEq, Repr

/-- Modelled from the spec: glob matching used by `client.files_to_unlink`
(not under src/) — a fnmatch-style pattern where a star matches any
character sequence and a question mark exactly one character.  The star
case matches when the rest of the pattern matches some suffix of the
string. -/
def globMatchL : List Char → List Char → Bool
  | [], s => s.isEmpty
  | '*' :: ps, s => s.tails.any fun t => globMatchL ps t
  | '?' :: _, [] => false
  | '?' :: ps, _ :: cs => globMatchL ps cs
  | _ :: _, [] => false
  | p :: ps, c :: cs => p == c && globMatchL ps cs

/-- Glob matching on strings. -/
def globMatch (pat s : String) : Bool :=
  globMatchL pat.toList s.toList

/-- Modelled from the spec: `client.files_to_unlink` (not under src/)
resolves the glob pattern against the dataset's current file index and
returns the matched set of paths. -/
def files_to_unlink (ds : DatasetState) (glob : String) : List String :=
  (ds.files.filter fun f => globMatch glob f.path).map fun f => f.path

/-- Modelled from the spec: `Dataset.remove_file`
(`renku.models.datasets`, not under src/) removes the file record at the
given relative path from the dataset's file index. -/
def remove_file (ds : DatasetState) (path : String) : DatasetState :=
  { ds with files := ds.files.filter fun f => f.path ≠ path }

/-- `unlink_files` (`renku/cli/dataset.py`): compute the files matching
the glob; when a prompt is given, the user did not pass yes, and the
prompt is declined, raise `click.Abort` before touching anything;
otherwise remove each matched file from the index (and unlink the same
paths from disk).  Returns the unlinked paths and the new state. -/
def unlink_files (yes : Bool) (prompt : Option (List String → String → Bool))
    (ds : DatasetState) (glob : String) :
    Except CliError (List String × DatasetState) :=
  let toUnlink := files_to_unlink ds glob
  let confirmed :=
    match prompt with
    | none => true
    | some p => yes || p toUnlink ds.name
  if confirmed then .ok (toUnlink, toUnlink.foldl remove_file ds)
  else .error .abort

/-- The observable outcome of a CLI command: the dataset state at the
end of the `with_dataset` block and the lines echoed to the console. -/
structure CliResult where
  dataset : DatasetState
  unlinked : List String
  output : List String
deriving DecidableEq, Repr

/-- The line `'\nDeleted {0} file{1}.'.format(n, '' if n == 1 else 's')`. -/
def deletedLine (n : Nat) : String :=
  "\nDeleted " ++ toString n ++ " file" ++ (if n == 1 then "" else "s") ++ "."

/-- `unlink` command (`renku/cli/dataset.py`): unlink the files matching
the pattern (with the confirmation prompt), echo OK, and in verbose mode
echo the deleted count followed by each unlinked path. -/
def unlink (yes verbose : Bool) (prompt : List String → String → Bool)
    (ds : DatasetState) (pat : String) : Except CliError CliResult :=
  match unlink_files yes (some prompt) ds pat with
  | .error e => .error e
  | .ok (unlinked, ds2) =>
    let out := ["OK"] ++
      (if verbose then deletedLine unlinked.length :: unlinked else [])
    .ok { dataset := ds2, unlinked := unlinked, output := out }

/-- Modelled from the spec: `client.delete_dataset` (not under src/)
removes the dataset entry, refusing with `NonEmptyDatasetError` when the
dataset still has files and force was not given. -/
def delete_dataset (ds : DatasetState) (force : Bool) : Except CliError Unit :=
  if ds.files ≠ [] ∧ force = false then .error .nonEmptyDataset else .ok ()

/-- `delete` command (`renku/cli/dataset.py`): delete the dataset (the
modelled `client.delete_dataset` refuses on files without force); when
the dataset had files, unlink them all with pattern star and yes set and
bind the local `unlinked` to the result; echo OK; in verbose mode read
`unlinked` — which is unbound when the dataset had no files, so the read
raises `UnboundLocalError` — and echo the count line or the no-files
line. -/
def delete (ds : DatasetState) (force verbose : Bool) :
    Except CliError CliResult :=
  match delete_dataset ds force with
  | .error e => .error e
  | .ok _ =>
    let step : Option (List String) × DatasetState :=
      if ds.files ≠ [] then
        match unlink_files true none ds "*" with
        | .ok (unlinked, ds2) => (some unlinked, ds2)
        | .error _ => (none, ds)
      else (none, ds)
    if verbose then
      match step.1 with
      | none => .error .unboundLocal
      | some unlinked =>
        if unlinked.length > 0 then
          .ok { dataset := step.2, unlinked := unlinked
                output := ["OK", deletedLine unlinked.length] }
        else
          .ok { dataset := step.2, unlinked := unlinked
                output := ["OK", "No files to delete."] }
    else
      .ok { dataset := step.2, unlinked := (step.1).getD []
            output := ["OK"] }

/-- One row of the `ls-files` table, with the columns the source
tabulates: added, authors, file. -/
structure LsRow where
  added : Nat
  authors_csv : String
  file : String
deriving DecidableEq, Repr

/-- `ls_files` command (`renku/cli/dataset.py`): tabulate the dataset's
file index in index order with the added / authors / file columns.  The
command only reads the dataset, so the state it hands back to
`with_dataset` is returned unchanged alongside the rows. -/
def ls_files (ds : DatasetState) : List LsRow × DatasetState :=
  (ds.files.map fun f =>
    { added := f.added, authors_csv := f.authors_csv, file := f.path }, ds)

/-! ## Concrete fixtures for the closed witness statements -/

/-- An HTTP oracle whose every response is a 200 carrying deposition id 7. -/
def okOracle : Req → Resp := fun _ => ⟨200, 7, [], ""⟩

/-- An HTTP oracle that accepts every request except file uploads, which
fail with a 500 server error. -/
def failUploadOracle : Req → Resp := fun req =>
  match req with
  | .uploadFile _ _ => ⟨500, 0, [], "server error"⟩
  | _ => ⟨200, 7, [], ""⟩

/-- A lookup oracle answering every record lookup with HTTP 201. -/
def lookup201 : String → Resp := fun _ => ⟨201, 0, [], ""⟩

/-- A two-file dataset for exercising the exporter. -/
def sampleExpDataset : ExpDataset :=
  { name := "ds"
    description := "d"
    creator := [⟨"Jane", "EPFL"⟩]
    files := [⟨"/repo/data/ds/a.txt"⟩, ⟨"/repo/data/ds/b.csv"⟩] }

/-- A fetched record with one remote file. -/
def sampleRecord : ZenodoRecord :=
  { files := [⟨"1", "sha256:aa", "https://zenodo.org/f/1", "a.txt", 5⟩]
    jsonld := { title := "rec", description := "desc", creators := [⟨"Jane", "EPFL"⟩] } }

/-- The dataset that importing `sampleRecord` produces. -/
def sampleImported : ImportedDataset :=
  { name := "rec"
    description := "desc"
    authors := [⟨"Jane", "EPFL"⟩]
    files := [⟨"https://zenodo.org/f/1", "1", "sha256:aa", "a.txt", 5, "txt", "rec", ""⟩] }

/-- The dataset state of the spec's CLI scenario: `a.txt`, `dir/x`, `dir/y`. -/
def sampleDatasetState : DatasetState :=
  { name := "ds"
    files := [⟨"a.txt", 1, "Jane"⟩, ⟨"dir/x", 2, "Jane"⟩, ⟨"dir/y", 3, "Jane"⟩] }

/-- A dataset with an empty file index. -/
def emptyDatasetState : DatasetState := { name := "ds", files := [] }

/-! ## Shared lemmas -/

/-- A response with a success status passes `check_or_raise`. -/
theorem check_or_raise_ok_of_success (r : Resp)
    (h : r.status ∈ [200, 201, 202]) : check_or_raise r = .ok () := by
  simp [check_or_raise, h]

/-! ## Claim theorems -/

/-- C2: during export, a response status of 200, 201 or 202 passes the
check; 401 raises the authorization error; 400 raises the validation
error whose lines are built from each payload error's field and message
(each line containing that field and message verbatim); any other status
raises the generic transfer error carrying the response content. -/
theorem check_or_raise_cases (r : Resp) :
    (r.status ∈ [200, 201, 202] → check_or_raise r = .ok ()) ∧
    (r.status = 401 → check_or_raise r = .error .unauthorized) ∧
    (r.status = 400 → check_or_raise r =
      .error (.validation (r.errors.map fun e => errLine e.field e.message))) ∧
    (r.status ∉ [200, 201, 202] → r.status ≠ 401 → r.status ≠ 400 →
      check_or_raise r = .error (.generic r.content)) ∧
    (∀ f m, ∃ a b c, errLine f m = a ++ f ++ b ++ m ++ c) := by
  refine ⟨fun h => check_or_raise_ok_of_success r h, ?_, ?_, ?_, ?_⟩
  · intro h; simp [check_or_raise, h]
  · intro h; simp [check_or_raise, h]
  · intro h1 h2 h3; simp [check_or_raise, h1, h2, h3]
  · intro f m; exact ⟨"\"", "\" failed with \"", "\"", rfl⟩

/-- Witness for C2 at one concrete response per status class. -/
theorem check_or_raise_cases_witness :
    check_or_raise ⟨200, 0, [], ""⟩ = .ok () ∧
    check_or_raise ⟨401, 0, [], ""⟩ = .error .unauthorized ∧
    check_or_raise ⟨400, 0, [⟨"title", "missing"⟩], ""⟩ =
      .error (.validation ["\"title\" failed with \"missing\""]) ∧
    check_or_raise ⟨500, 0, [], "boom"⟩ = .error (.generic "boom") := by
  refine ⟨(check_or_raise_cases _).1 (by decide),
    (check_or_raise_cases _).2.1 rfl, ?_,
    (check_or_raise_cases _).2.2.2.1 (by decide) (by decide) (by decide)⟩
  have h := (check_or_raise_cases ⟨400, 0, [⟨"title", "missing"⟩], ""⟩).2.2.1 rfl
  simpa [errLine] using h

/-- C5 counterexample: a 201 lookup response is a 2xx success status, yet
`make_request` raises the record-not-found error for it. -/
theorem make_request_2xx_counterexample :
    (200 ≤ 201 ∧ 201 < 300) ∧
    make_request lookup201 "https://zenodo.org/record/123" =
      .error .recordNotFound :=
  ⟨by decide, rfl⟩

/-- C5 (amended): a record lookup fails with the record-not-found error
exactly when the response status differs from 200, and returns the
response exactly when the status is 200. -/
theorem make_request_status (lookup : String → Resp) (uri : String) :
    (make_request lookup uri = .error .recordNotFound ↔
      (lookup (record_id uri)).status ≠ 200) ∧
    (make_request lookup uri = .ok (lookup (record_id uri)) ↔
      (lookup (record_id uri)).status = 200) := by
  unfold make_request
  by_cases h : (lookup (record_id uri)).status = 200 <;> simp [h]

/-- C4: enumerating a record's files fails with the no-files lookup error
exactly on an empty file list; on a nonempty list it succeeds with one
serializer per raw file, each preserving the file's checksum, size, id
and filename — for the provider serializer and the `Record` class alike. -/
theorem get_files_spec (files : List RecordFileJson) :
    (files = [] → get_files files = .error .noFiles) ∧
    (files ≠ [] → get_files files = .ok (files.map serializeFile)) ∧
    (∀ f, (serializeFile f).checksum = f.checksum ∧
      (serializeFile f).filesize = f.filesize ∧
      (serializeFile f).id = f.id ∧
      (serializeFile f).filename = f.filename) ∧
    (∀ dfs : List RecordFile,
      (dfs = [] → Record.get_files dfs = .error .noFiles) ∧
      (dfs ≠ [] → Record.get_files dfs = .ok dfs)) := by
  refine ⟨?_, ?_, ?_, ?_⟩
  · intro h; simp [get_files, h]
  · intro h; simp [get_files, h]
  · intro f; exact ⟨rfl, rfl, rfl, rfl⟩
  · intro dfs
    constructor
    · intro h; simp [Record.get_files, h]
    · intro h; simp [Record.get_files, h]

/-- Witness for C4 on an empty and a one-file record. -/
theorem get_files_spec_witness :
    get_files [] = .error .noFiles ∧
    get_files [⟨"1", "sha", "u", "a.txt", 5⟩] =
      .ok [⟨"1", "sha", "u", "a.txt", 5⟩] ∧
    Record.get_files [] = .error .noFiles := by
  refine ⟨(get_files_spec []).1 rfl, ?_, ((get_files_spec []).2.2.2 []).1 rfl⟩
  have h := (get_files_spec [⟨"1", "sha", "u", "a.txt", 5⟩]).2.1 (by simp)
  simpa [serializeFile] using h

/-- C3: whenever converting a fetched record to a dataset succeeds, the
dataset's files are exactly one record per remote file — in order,
preserving each file's id, checksum, filename and size, with empty local
path — and the record's title, description and creators are mapped onto
the dataset's metadata and author list. -/
theorem as_dataset_spec (r : ZenodoRecord) (d : ImportedDataset)
    (h : as_dataset r = .ok d) :
    d.files = (r.files.map fun f =>
      { url := f.download
        id := f.id
        checksum := f.checksum
        filename := f.filename
        filesize := f.filesize
        filetype := fileTypeOf f.filename
        dataset := r.jsonld.title
        path := "" }) ∧
    d.name = r.jsonld.title ∧
    d.description = r.jsonld.description ∧
    d.authors = (r.jsonld.creators.map fun c =>
      { name := c.name, affiliation := c.affiliation }) := by
  unfold as_dataset get_files at h
  by_cases hl : r.files.length = 0
  · simp [hl] at h
  · simp only [hl, if_false, Except.ok.injEq] at h
    subst h
    refine ⟨?_, rfl, rfl, rfl⟩
    simp [datasetFromJsonld, serializeFile, List.map_map, Function.comp]

/-- Witness for C3 at a concrete one-file record. -/
theorem as_dataset_spec_witness :
    sampleImported.files = (sampleRecord.files.map fun f =>
      { url := f.download
        id := f.id
        checksum := f.checksum
        filename := f.filename
        filesize := f.filesize
        filetype := fileTypeOf f.filename
        dataset := sampleRecord.jsonld.title
        path := "" }) ∧
    sampleImported.name = sampleRecord.jsonld.title ∧
    sampleImported.description = sampleRecord.jsonld.description ∧
    sampleImported.authors = (sampleRecord.jsonld.creators.map fun c =>
      { name := c.name, affiliation := c.affiliation }) :=
  as_dataset_spec sampleRecord sampleImported rfl

/-- When every response is a success, the upload loop uploads every file
in order with one progress tick each and reports no error. -/
theorem upload_files_loop_ok (oracle : Req → Resp) (deposition_id : Nat)
    (files : List ExpFile) (h : ∀ req, (oracle req).status ∈ [200, 201, 202]) :
    upload_files_loop oracle deposition_id files =
      (expectedUploadEvents deposition_id files, none) := by
  induction files with
  | nil => rfl
  | cons f fs ih =>
    simp [upload_files_loop, check_or_raise_ok_of_success _ (h _),
      expectedUploadEvents, ih]

/-- C1: for every dataset and publish flag, under an HTTP oracle whose
every response has a success status, the export performs exactly this
sequence: the new-deposition request; one upload request per dataset file
in order, each followed by one progress tick; the attach-metadata request
carrying the translated title, description and creators; and — exactly
when publishing was requested — the publish request, returning the
published-record URL, and otherwise the draft-deposit URL. -/
theorem export_success_sequence (oracle : Req → Resp) (base : String)
    (ds : ExpDataset) (to_publish : Bool)
    (h : ∀ req, (oracle req).status ∈ [200, 201, 202]) :
    «export» oracle base ds to_publish =
      (Event.request Req.newDeposition ::
        (expectedUploadEvents (oracle Req.newDeposition).id ds.files ++
          [Event.request (Req.attachMetadata (oracle Req.newDeposition).id
            (metadataPayload ds))] ++
          (if to_publish then
            [Event.request (Req.publishDeposition (oracle Req.newDeposition).id)]
          else [])),
        if to_publish then .ok (published_at base (oracle Req.newDeposition).id)
        else .ok (deposit_at base (oracle Req.newDeposition).id)) := by
  have hc : ∀ req : Req, check_or_raise (oracle req) = .ok () :=
    fun req => check_or_raise_ok_of_success _ (h req)
  cases to_publish <;>
    simp [«export», hc, upload_files_loop_ok oracle _ _ h]

/-- Witness for C1: a concrete all-success oracle, a two-file dataset,
publishing requested. -/
theorem export_success_sequence_witness :
    «export» okOracle "https://zenodo.org/" sampleExpDataset true =
      ([Event.request Req.newDeposition,
        Event.request (Req.uploadFile 7 "a.txt"), Event.progress,
        Event.request (Req.uploadFile 7 "b.csv"), Event.progress,
        Event.request (Req.attachMetadata 7
          ⟨"ds", "dataset", "d", [⟨"Jane", "EPFL"⟩]⟩),
        Event.request (Req.publishDeposition 7)],
        .ok "https://zenodo.org/record/7") := by
  have h := export_success_sequence okOracle "https://zenodo.org/"
    sampleExpDataset true (fun req => by simp [okOracle])
  rw [h]
  rfl

/-- When the uploads of `pre` are accepted and the upload of `f` is
rejected with error `e`, the upload loop stops at `f` after a single
attempt: its events are the uploads of `pre` with their progress ticks
followed by the one failing request, and it reports `e`. -/
theorem upload_files_loop_failure (oracle : Req → Resp) (deposition_id : Nat)
    (pre post : List ExpFile) (f : ExpFile) (e : ZError)
    (hpre : ∀ g ∈ pre, check_or_raise
      (oracle (Req.uploadFile deposition_id (pathName g.full_path))) = .ok ())
    (hf : check_or_raise
      (oracle (Req.uploadFile deposition_id (pathName f.full_path))) = .error e) :
    upload_files_loop oracle deposition_id (pre ++ f :: post) =
      (expectedUploadEvents deposition_id pre ++
        [Event.request (Req.uploadFile deposition_id (pathName f.full_path))],
        some e) := by
  induction pre with
  | nil => simp [upload_files_loop, hf, expectedUploadEvents]
  | cons g gs ih =>
    have hg := hpre g (List.mem_cons_self g gs)
    have ih2 := ih fun g' hg' => hpre g' (List.mem_cons_of_mem g hg')
    simp [upload_files_loop, hg, expectedUploadEvents, ih2]

/-- C6 counterexample: with an oracle that rejects every file upload with
a 500, exporting a two-file dataset attempts the failing upload exactly
once — the whole trace holds a single upload request, with no retry — and
the generic transfer error propagates immediately as the result. -/
theorem export_no_retry_counterexample :
    («export» failUploadOracle "https://zenodo.org/" sampleExpDataset false).2 =
      .error (.generic "server error") ∧
    uploadCount
      («export» failUploadOracle "https://zenodo.org/" sampleExpDataset false).1 = 1 :=
  ⟨rfl, rfl⟩

/-- C6 (amended): the exporter applies no retry policy — when the upload
of a file fails, each earlier file was uploaded exactly once, the failing
file was attempted exactly once, and the error propagates immediately as
the export result without any further request. -/
theorem export_upload_failure_propagates (oracle : Req → Resp) (base : String)
    (ds : ExpDataset) (to_publish : Bool) (pre post : List ExpFile)
    (f : ExpFile) (e : ZError)
    (hfiles : ds.files = pre ++ f :: post)
    (hnew : check_or_raise (oracle Req.newDeposition) = .ok ())
    (hpre : ∀ g ∈ pre, check_or_raise
      (oracle (Req.uploadFile (oracle Req.newDeposition).id
        (pathName g.full_path))) = .ok ())
    (hf : check_or_raise
      (oracle (Req.uploadFile (oracle Req.newDeposition).id
        (pathName f.full_path))) = .error e) :
    «export» oracle base ds to_publish =
      (Event.request Req.newDeposition ::
        (expectedUploadEvents (oracle Req.newDeposition).id pre ++
          [Event.request (Req.uploadFile (oracle Req.newDeposition).id
            (pathName f.full_path))]),
        .error e) := by
  have hloop := upload_files_loop_failure oracle (oracle Req.newDeposition).id
    pre post f e hpre hf
  simp [«export», hnew, hfiles, hloop]

/-- Witness for the amended C6: the failing upload of the first file of
the two-file dataset is attempted once and its error is the result. -/
theorem export_upload_failure_propagates_witness :
    «export» failUploadOracle "https://zenodo.org/" sampleExpDataset false =
      ([Event.request Req.newDeposition,
        Event.request (Req.uploadFile 7 "a.txt")],
        .error (.generic "server error")) := by
  have h := export_upload_failure_propagates failUploadOracle
    "https://zenodo.org/" sampleExpDataset false []
    [⟨"/repo/data/ds/b.csv"⟩] ⟨"/repo/data/ds/a.txt"⟩ (.generic "server error")
    rfl rfl (by simp) rfl
  rw [h]
  rfl

/-- Folding `remove_file` over a list of paths filters exactly those
paths out of the file index and keeps the dataset name. -/
theorem foldl_remove_file_eq (L : List String) (ds : DatasetState) :
    L.foldl remove_file ds =
      { name := ds.name, files := ds.files.filter fun f => f.path ∉ L } := by
  induction L generalizing ds with
  | nil => simp
  | cons a L ih =>
    rw [List.foldl_cons, ih]
    simp only [remove_file]
    congr 1
    rw [List.filter_filter]
    apply List.filter_congr
    intro f _
    simp [List.mem_cons, not_or, Bool.and_comm]

/-- A member's path occurs in the matched set exactly when it matches
the glob. -/
theorem mem_files_to_unlink (ds : DatasetState) (pat : String)
    (f : DatasetFileEntry) :
    f.path ∈ files_to_unlink ds pat ↔
      ∃ g ∈ ds.files, g.path = f.path ∧ globMatch pat g.path = true := by
  simp only [files_to_unlink, List.mem_map, List.mem_filter]
  constructor
  · rintro ⟨g, ⟨hg, hm⟩, hp⟩
    exact ⟨g, hg, hp, hm⟩
  · rintro ⟨g, hg, hp, hm⟩
    exact ⟨g, ⟨hg, hm⟩, hp⟩

/-- The star pattern matches every string. -/
theorem globMatch_star (s : String) : globMatch "*" s = true := by
  have key : ∀ l : List Char, (l.tails.any fun t => globMatchL [] t) = true := by
    intro l
    induction l with
    | nil => rfl
    | cons a l ih => simp [List.tails_cons, ih]
  simp [globMatch, globMatchL, key s.toList]

/-- With the star pattern, every file of the index is matched. -/
theorem files_to_unlink_star (ds : DatasetState) :
    files_to_unlink ds "*" = ds.files.map fun f => f.path := by
  simp [files_to_unlink, globMatch_star]

/-- `unlink_files` with yes set, no prompt and the star pattern empties
the file index and returns every path. -/
theorem unlink_files_star (ds : DatasetState) :
    unlink_files true none ds "*" =
      .ok (ds.files.map fun f => f.path, { name := ds.name, files := [] }) := by
  unfold unlink_files
  simp [files_to_unlink_star, foldl_remove_file_eq, List.filter_eq_nil_iff]
  intro a ha
  exact ⟨a, ha, rfl⟩

/-- C7: unlink aborts — removing nothing — when a prompt is shown without
the yes flag and the user declines; on success it removes from the file
index exactly the files matching the pattern, returns their paths as the
unlinked set, and keeps every non-matching file (and the dataset name). -/
theorem unlink_spec (yes verbose : Bool) (prompt : List String → String → Bool)
    (ds : DatasetState) (pat : String) :
    (yes = false → prompt (files_to_unlink ds pat) ds.name = false →
      unlink yes verbose prompt ds pat = .error .abort) ∧
    (∀ res, unlink yes verbose prompt ds pat = .ok res →
      res.unlinked = files_to_unlink ds pat ∧
      res.dataset.files = ds.files.filter (fun f => !(globMatch pat f.path)) ∧
      res.dataset.name = ds.name) := by
  constructor
  · intro hyes hp
    simp [unlink, unlink_files, hyes, hp]
  · intro res hres
    by_cases hc : (yes || prompt (files_to_unlink ds pat) ds.name) = true
    · simp only [unlink, unlink_files, hc, if_pos, foldl_remove_file_eq,
        Except.ok.injEq] at hres
      subst hres
      refine ⟨rfl, ?_, rfl⟩
      apply List.filter_congr
      intro f hf
      cases hmm : globMatch pat f.path
      · simp only [Bool.not_false, decide_eq_true_eq]
        intro hmem
        rcases (mem_files_to_unlink ds pat f).1 hmem with ⟨g, _, hpg, hmg⟩
        rw [hpg, hmm] at hmg
        exact absurd hmg Bool.false_ne_true
      · simp only [Bool.not_true, decide_eq_false_iff_not, not_not]
        exact (mem_files_to_unlink ds pat f).2 ⟨f, hf, rfl, hmm⟩
    · simp [unlink, unlink_files, hc] at hres

/-- Witness for C7: the spec scenario — `a.txt`, `dir/x`, `dir/y` with
pattern `dir/*` — declined prompt aborts; accepted prompt removes exactly
the two matching files. -/
theorem unlink_spec_witness :
    unlink false false (fun _ _ => false) sampleDatasetState "dir/*" =
      .error .abort ∧
    (⟨⟨"ds", [⟨"a.txt", 1, "Jane"⟩]⟩, ["dir/x", "dir/y"], ["OK"]⟩ :
        CliResult).dataset.files =
      sampleDatasetState.files.filter (fun f => !(globMatch "dir/*" f.path)) := by
  constructor
  · exact (unlink_spec false false (fun _ _ => false)
      sampleDatasetState "dir/*").1 rfl rfl
  · exact ((unlink_spec true false (fun _ _ => true)
      sampleDatasetState "dir/*").2
      ⟨⟨"ds", [⟨"a.txt", 1, "Jane"⟩]⟩, ["dir/x", "dir/y"], ["OK"]⟩ rfl).2.1

/-- C8: deleting a dataset that has files without force fails with the
non-empty-dataset error (the scoped mutation discards any change on
error); with force, every file record is removed from the index, the
unlinked set is every file's path, and verbose mode reports the count of
removed files. -/
theorem delete_spec (ds : DatasetState) (verbose : Bool) (h : ds.files ≠ []) :
    delete ds false verbose = .error .nonEmptyDataset ∧
    (∀ res, delete ds true verbose = .ok res →
      res.dataset.files = [] ∧
      res.unlinked = (ds.files.map fun f => f.path) ∧
      res.unlinked.length = ds.files.length ∧
      (verbose = true → res.output = ["OK", deletedLine ds.files.length])) := by
  constructor
  · simp [delete, delete_dataset, h]
  · intro res hres
    have hlen : 0 < ds.files.length := List.length_pos.mpr h
    cases verbose
    · simp [delete, delete_dataset, h, unlink_files_star, hlen] at hres
      subst hres
      simp [List.length_map]
    · simp [delete, delete_dataset, h, unlink_files_star, hlen] at hres
      subst hres
      simp [List.length_map]

/-- Witness for C8 on the three-file dataset: no force fails, force in
verbose mode empties the index and reports the three removed files. -/
theorem delete_spec_witness :
    delete sampleDatasetState false true = .error .nonEmptyDataset ∧
    delete sampleDatasetState true true =
      .ok ⟨⟨"ds", []⟩, ["a.txt", "dir/x", "dir/y"],
        ["OK", "\nDeleted 3 files."]⟩ := by
  constructor
  · exact (delete_spec sampleDatasetState true (by simp [sampleDatasetState])).1
  · rfl

/-- C9: the ls-files listing is the dataset's file index in insertion
order, so under the registry invariant that added timestamps are
monotone non-decreasing in insertion order the listing is sorted by
added time; the command hands the dataset back unchanged, and repeating
it yields the same rows. -/
theorem ls_files_spec (ds : DatasetState)
    (h : ds.files.Pairwise fun a b => a.added ≤ b.added) :
    ((ls_files ds).1.Pairwise fun a b => a.added ≤ b.added) ∧
    (ls_files ds).2 = ds ∧
    ls_files (ls_files ds).2 = ls_files ds := by
  refine ⟨?_, rfl, rfl⟩
  simpa [ls_files, List.pairwise_map] using h

/-- Witness for C9 on the three-file dataset with added times 1, 2, 3. -/
theorem ls_files_spec_witness :
    ((ls_files sampleDatasetState).1.Pairwise fun a b => a.added ≤ b.added) ∧
    (ls_files sampleDatasetState).2 = sampleDatasetState ∧
    ls_files (ls_files sampleDatasetState).2 = ls_files sampleDatasetState :=
  ls_files_spec sampleDatasetState (by decide)

/-- C10: deleting a dataset with no files in verbose mode reads the local
holding the unlinked list, which was never assigned — the modelled
command fails with the unbound-local error instead of reporting zero
files deleted. -/
theorem delete_empty_verbose_unbound (ds : DatasetState) (force : Bool)
    (h : ds.files = []) :
    delete ds force true = .error .unboundLocal := by
  simp [delete, delete_dataset, h]

/-- Witness for C10 on the empty dataset. -/
theorem delete_empty_verbose_unbound_witness :
    delete emptyDatasetState false true = .error .unboundLocal :=
  delete_empty_verbose_unbound emptyDatasetState false rfl

end Renku
